import Mathlib

/-!
Verification of the YouTrack MCP adapter (`youtrack_api.py`, `server.py`).

The adapter layer is embedded shallowly: each Python operation function
becomes a Lean function from its arguments to a `Request` descriptor, and
the HTTP helper `_make_request` becomes a function from the request and the
outcome of the underlying HTTP call to the returned JSON value.  Machine
effects (logging, the actual network) are outside the embedding; the
network's behaviour is the `HttpOutcome` parameter.
-/

namespace YoutrackMcp

/-- A JSON value, as returned by the adapter layer (decoded response body
or normalized error mapping). -/
inductive Json where
  | null : Json
  | bool (b : Bool) : Json
  | num (n : Int) : Json
  | str (s : String) : Json
  | arr (elems : List Json) : Json
  | obj (entries : List (String × Json)) : Json

/-- Whether a JSON value is an object containing the given key. -/
def Json.hasKey : Json → String → Bool
  | .obj entries, k => entries.any (fun p => p.1 == k)
  | _, _ => false

/-- A query-parameter value: the Python code puts strings (`query`,
`fields`) and integers (`$top`, `$skip`) into the `params` dict. -/
inductive PVal where
  | str (s : String) : PVal
  | int (n : Int) : PVal
deriving DecidableEq

/-- The request descriptor assembled by an operation function and handed
to `_make_request`: method, endpoint path, query parameters (in dict
insertion order), and optional JSON body. -/
structure Request where
  method : String
  endpoint : String
  params : List (String × PVal)
  body : Option Json

/-- Python truthiness test and in-place append from
`if custom_fields: params["fields"] += f",{custom_fields}"`, identical in
`search_issues` and `get_issue`: a `None` or empty `custom_fields` leaves
`fields` unchanged, otherwise `custom_fields` is appended after a comma. -/
def appendCustomFields (fields : String) (custom_fields : Option String) : String :=
  match custom_fields with
  | none => fields
  | some cf => if cf = "" then fields else fields ++ "," ++ cf

/-- `search_issues` from youtrack_api.py: builds the GET request on
endpoint `issues` with params `query`, `fields`, `$top`, `$skip`. -/
def search_issues (query : String)
    (fields : String := "idReadable,summary,project(shortName)")
    (custom_fields : Option String := none)
    (top : Int := 100) (skip : Int := 0) : Request :=
  { method := "GET"
    endpoint := "issues"
    params := [("query", .str query),
               ("fields", .str (appendCustomFields fields custom_fields)),
               ("$top", .int top),
               ("$skip", .int skip)]
    body := none }

/-- `get_issue` from youtrack_api.py: GET on `issues/{issue_id}` with the
`fields` param (custom fields appended when supplied). -/
def get_issue (issue_id : String)
    (fields : String := "idReadable,summary,description,project(shortName),customFields(projectCustomField(field(name)),value(name,login,fullName,text))")
    (custom_fields : Option String := none) : Request :=
  { method := "GET"
    endpoint := "issues/" ++ issue_id
    params := [("fields", .str (appendCustomFields fields custom_fields))]
    body := none }

/-- `update_issue` from youtrack_api.py: POST on `issues/{issue_id}` with
`data` passed verbatim as the JSON body. -/
def update_issue (issue_id : String) (data : Json)
    (fields : String := "idReadable,summary") : Request :=
  { method := "POST"
    endpoint := "issues/" ++ issue_id
    params := [("fields", .str fields)]
    body := some data }

/-- `add_comment` from youtrack_api.py: POST on `issues/{issue_id}/comments`
with body `{"text": comment_text}`. -/
def add_comment (issue_id : String) (comment_text : String)
    (fields : String := "id,text,author(login)") : Request :=
  { method := "POST"
    endpoint := "issues/" ++ issue_id ++ "/comments"
    params := [("fields", .str fields)]
    body := some (.obj [("text", .str comment_text)]) }

/-- The outcome of the underlying `requests.request(...)` call together
with the subsequent body decoding:
an HTTP response was delivered (with its status code, and `some` decoded
body or `none` when `response.json()` cannot decode it), the library raised
a `RequestException` (transport failure: connection refused, timeout, DNS),
or some other exception was raised. -/
inductive HttpOutcome where
  | response (status : Nat) (body : Option Json) : HttpOutcome
  | requestException (msg : String) : HttpOutcome
  | otherException (msg : String) : HttpOutcome

/-- URL construction from `_make_request`: `f"{YOUTRACK_URL}/api/{endpoint}"`. -/
def mkUrl (base_url endpoint : String) : String :=
  base_url ++ "/api/" ++ endpoint

/-- The message of the `HTTPError` raised by `response.raise_for_status()`
for a 4xx/5xx status, as stringified by the handler (`str(e)`). -/
def httpErrorMsg (status : Nat) (url : String) : String :=
  toString status ++ " " ++
    (if status < 500 then "Client Error" else "Server Error") ++
    " for url: " ++ url

/-- The message of the `JSONDecodeError` raised by `response.json()` on an
undecodable body, as stringified by the handler. -/
def jsonDecodeErrorMsg : String :=
  "Expecting value: line 1 column 1 (char 0)"

/-- `_make_request` from youtrack_api.py, as a function of the HTTP
outcome: `raise_for_status` raises for 4xx/5xx (caught as a
`RequestException`, yielding `{"error": str(e)}`), status 204 yields `{}`,
otherwise the decoded body is returned; an undecodable body raises a
`JSONDecodeError` (a `RequestException`, yielding `{"error": str(e)}`); any
other exception yields the generic `{"error": "An unexpected error
occurred"}`. -/
def make_request (base_url : String) (req : Request) (out : HttpOutcome) : Json :=
  match out with
  | .response status body =>
      if 400 ≤ status ∧ status < 600 then
        .obj [("error", .str (httpErrorMsg status (mkUrl base_url req.endpoint)))]
      else if status = 204 then
        .obj []
      else
        match body with
        | some j => j
        | none => .obj [("error", .str jsonDecodeErrorMsg)]
  | .requestException msg => .obj [("error", .str msg)]
  | .otherException _ => .obj [("error", .str "An unexpected error occurred")]

/-- Whether an HTTP outcome is a failure of the call: a 4xx/5xx status, a
non-204 response whose body is not decodable as JSON, a transport failure,
or any other exception. -/
def HttpOutcome.isFailure : HttpOutcome → Bool
  | .response status body =>
      (400 ≤ status && status < 600) || (status ≠ 204 && body.isNone)
  | .requestException _ => true
  | .otherException _ => true

/-- The application context yielded by `app_lifespan` in server.py:
configuration read once at startup and available to handlers for the
lifetime of the process. -/
structure AppContext where
  youtrack_url : String
  youtrack_token : String
  read_only : Bool

/-- Tool facade `youtrack_search_issues` from server.py: forwards its
arguments to `search_issues`. -/
def youtrack_search_issues (query : String)
    (fields : String := "idReadable,summary,project(shortName)")
    (custom_fields : Option String := none)
    (top : Int := 100) (skip : Int := 0) : Request :=
  search_issues query fields custom_fields top skip

/-- Tool facade `youtrack_get_issue` from server.py: forwards its
arguments to `get_issue`. -/
def youtrack_get_issue (issue_id : String)
    (fields : String := "idReadable,summary,description,project(shortName),customFields(projectCustomField(field(name)),value(name,login,fullName,text))")
    (custom_fields : Option String := none) : Request :=
  get_issue issue_id fields custom_fields

/-- Tool facade `youtrack_update_issue` from server.py: forwards its
arguments to `update_issue`. -/
def youtrack_update_issue (issue_id : String) (data : Json)
    (fields : String := "idReadable,summary") : Request :=
  update_issue issue_id data fields

/-- Tool facade `youtrack_add_comment` from server.py: forwards its
arguments to `add_comment`. -/
def youtrack_add_comment (issue_id : String) (comment_text : String)
    (fields : String := "id,text,author(login)") : Request :=
  add_comment issue_id comment_text fields

/-- A tool invocation received by the protocol runtime, naming one of the
four registered tools with its arguments. -/
inductive ToolCall where
  | searchIssues (query fields : String) (custom_fields : Option String)
      (top skip : Int) : ToolCall
  | getIssue (issue_id fields : String) (custom_fields : Option String) : ToolCall
  | updateIssue (issue_id : String) (data : Json) (fields : String) : ToolCall
  | addComment (issue_id comment_text fields : String) : ToolCall

/-- Dispatch of a tool invocation to the registered facade, with the
lifespan `AppContext` in scope as it is in the running server.  As in
server.py, no handler reads any part of the context — in particular not
`read_only` — so the context parameter is unused on every branch. -/
def toolDispatch (_ctx : AppContext) : ToolCall → Request
  | .searchIssues query fields custom_fields top skip =>
      youtrack_search_issues query fields custom_fields top skip
  | .getIssue issue_id fields custom_fields =>
      youtrack_get_issue issue_id fields custom_fields
  | .updateIssue issue_id data fields =>
      youtrack_update_issue issue_id data fields
  | .addComment issue_id comment_text fields =>
      youtrack_add_comment issue_id comment_text fields

/-- Whether a character list contains two adjacent commas. -/
def hasDoubleComma : List Char → Bool
  | c :: d :: rest => (c = ',' && d = ',') || hasDoubleComma (d :: rest)
  | _ => false

/-- Whether a character list starts with a comma. -/
def headIsComma : List Char → Bool
  | [] => false
  | c :: _ => c = ','

/-- Whether a character list ends with a comma. -/
def lastIsComma : List Char → Bool
  | [] => false
  | [c] => c = ','
  | _ :: c :: rest => lastIsComma (c :: rest)

/-- A valid field projection string: nonempty, with no leading comma, no
trailing comma, and no duplicated (adjacent) comma. -/
def wellFormedFields (s : String) : Bool :=
  !s.data.isEmpty && !headIsComma s.data && !lastIsComma s.data &&
    !hasDoubleComma s.data

theorem isEmpty_false_iff (l : List Char) : l.isEmpty = false ↔ l ≠ [] := by
  cases l <;> simp

theorem headIsComma_append (a b : List Char) (ha : a ≠ []) :
    headIsComma (a ++ b) = headIsComma a := by
  cases a with
  | nil => exact absurd rfl ha
  | cons x xs => rfl

theorem lastIsComma_append (a b : List Char) (hb : b ≠ []) :
    lastIsComma (a ++ b) = lastIsComma b := by
  induction a with
  | nil => rfl
  | cons x xs ih =>
    have h1 : xs ++ b ≠ [] := by
      intro h
      exact hb (List.append_eq_nil.mp h).2
    obtain ⟨c, rest, h2⟩ := List.exists_cons_of_ne_nil h1
    calc lastIsComma ((x :: xs) ++ b) = lastIsComma (x :: (xs ++ b)) := rfl
      _ = lastIsComma (xs ++ b) := by rw [h2]; simp [lastIsComma]
      _ = lastIsComma b := ih

theorem hasDoubleComma_comma_cons (b : List Char)
    (hb1 : headIsComma b = false) (hb3 : hasDoubleComma b = false) :
    hasDoubleComma (',' :: b) = false := by
  cases b with
  | nil => rfl
  | cons c rest =>
    simp only [headIsComma, decide_eq_false_iff_not] at hb1
    simp [hasDoubleComma, hb1, hb3]

theorem hasDoubleComma_append (b : List Char)
    (hb : hasDoubleComma (',' :: b) = false) :
    ∀ a, hasDoubleComma a = false → lastIsComma a = false →
      hasDoubleComma (a ++ ',' :: b) = false := by
  intro a
  induction a with
  | nil => intro _ _; simpa using hb
  | cons x xs ih =>
    intro ha3 ha2
    cases xs with
    | nil =>
      simp only [lastIsComma, decide_eq_false_iff_not] at ha2
      simp [hasDoubleComma, ha2, hb]
    | cons y rest =>
      have h3 : hasDoubleComma (y :: rest) = false := by
        simp only [hasDoubleComma, Bool.or_eq_false_iff] at ha3
        exact ha3.2
      have hxy : (decide (x = ',') && decide (y = ',')) = false := by
        simp only [hasDoubleComma, Bool.or_eq_false_iff] at ha3
        exact ha3.1
      have h2 : lastIsComma (y :: rest) = false := ha2
      have hrec := ih h3 h2
      show hasDoubleComma (x :: ((y :: rest) ++ ',' :: b)) = false
      calc hasDoubleComma (x :: y :: (rest ++ ',' :: b))
          = ((decide (x = ',') && decide (y = ',')) ||
             hasDoubleComma (y :: (rest ++ ',' :: b))) := by
            simp [hasDoubleComma]
        _ = false := by
            rw [hxy]
            simpa using hrec

theorem wellFormedFields_append (a b : String)
    (ha : wellFormedFields a = true) (hb : wellFormedFields b = true) :
    wellFormedFields (a ++ "," ++ b) = true := by
  simp only [wellFormedFields, Bool.and_eq_true, Bool.not_eq_true',
    isEmpty_false_iff] at ha hb ⊢
  obtain ⟨⟨⟨ha0, ha1⟩, ha2⟩, ha3⟩ := ha
  obtain ⟨⟨⟨hb0, hb1⟩, hb2⟩, hb3⟩ := hb
  have hdata : (a ++ "," ++ b).data = a.data ++ ',' :: b.data := by
    simp [String.data_append]
  rw [hdata]
  refine ⟨⟨⟨?_, ?_⟩, ?_⟩, ?_⟩
  · intro h
    exact ha0 (List.append_eq_nil.mp h).1
  · rw [headIsComma_append _ _ ha0]; exact ha1
  · have h : a.data ++ ',' :: b.data = (a.data ++ [',']) ++ b.data := by simp
    rw [h, lastIsComma_append _ _ hb0]
    exact hb2
  · exact hasDoubleComma_append b.data
      (hasDoubleComma_comma_cons _ hb1 hb3) a.data ha3 ha2

/-- C1: for every fields string and custom_fields value, the assembled
`fields` query parameter sent by `search_issues` and `get_issue` equals
`fields` when `custom_fields` is empty or absent, and equals
`fields ++ "," ++ custom_fields` otherwise; for valid (well-formed) inputs
the result never has a duplicated, leading, or trailing comma. -/
theorem claim_c1 (query issue_id fields : String) (custom_fields : Option String)
    (top skip : Int)
    (hf : wellFormedFields fields = true)
    (hc : ∀ c, custom_fields = some c → c ≠ "" → wellFormedFields c = true) :
    ("fields", PVal.str (appendCustomFields fields custom_fields)) ∈
        (search_issues query fields custom_fields top skip).params
    ∧ ("fields", PVal.str (appendCustomFields fields custom_fields)) ∈
        (get_issue issue_id fields custom_fields).params
    ∧ ((custom_fields = none ∨ custom_fields = some "") →
        appendCustomFields fields custom_fields = fields)
    ∧ (∀ c, custom_fields = some c → c ≠ "" →
        appendCustomFields fields custom_fields = fields ++ "," ++ c)
    ∧ wellFormedFields (appendCustomFields fields custom_fields) = true := by
  refine ⟨by simp [search_issues], by simp [get_issue], ?_, ?_, ?_⟩
  · rintro (h | h) <;> subst h <;> simp [appendCustomFields]
  · rintro c h hne
    subst h
    simp [appendCustomFields, hne]
  · match custom_fields with
    | none => exact hf
    | some c =>
      by_cases hne : c = ""
      · subst hne; simpa [appendCustomFields] using hf
      · have hwc := hc c rfl hne
        simpa [appendCustomFields, hne] using wellFormedFields_append fields c hf hwc

/-- Witness for C1 at concrete inputs: default search fields with custom
field "Priority". -/
theorem claim_c1_witness :
    appendCustomFields "idReadable,summary" (some "Priority") =
      "idReadable,summary,Priority"
    ∧ wellFormedFields (appendCustomFields "idReadable,summary" (some "Priority")) =
        true :=
  ⟨by decide,
   (claim_c1 "project: DEMO" "DEMO-1" "idReadable,summary" (some "Priority") 100 0
      (by decide) (fun c h hne => by cases h; decide)).2.2.2.2⟩

/-- C2: for every method/endpoint/params/body and every outcome of the
underlying HTTP call, `_make_request` returns a value (the embedding is a
total function — no exception crosses the adapter boundary), and every
failure outcome is returned as a mapping of the shape
`\x7berror: <string>\x7d`. -/
theorem claim_c2 (base_url : String) (req : Request) (out : HttpOutcome)
    (h : out.isFailure = true) :
    ∃ s, make_request base_url req out = Json.obj [("error", Json.str s)] := by
  cases out with
  | response status body =>
    by_cases h4 : 400 ≤ status ∧ status < 600
    · exact ⟨httpErrorMsg status (mkUrl base_url req.endpoint),
        by simp [make_request, h4]⟩
    · simp only [HttpOutcome.isFailure, Bool.or_eq_true, Bool.and_eq_true,
        decide_eq_true_iff, Option.isNone_iff_eq_none, ne_eq,
        decide_not, Bool.not_eq_eq_eq_not, Bool.not_true, decide_eq_false_iff_not] at h
      rcases h with h | ⟨h204, hbody⟩
      · exact absurd h h4
      · subst hbody
        exact ⟨jsonDecodeErrorMsg, by simp [make_request, h4, h204]⟩
  | requestException msg => exact ⟨msg, rfl⟩
  | otherException msg => exact ⟨_, rfl⟩

/-- Witness for C2 at a concrete transport failure. -/
theorem claim_c2_witness :
    ∃ s, make_request "https://yt.example"
        { method := "GET", endpoint := "issues", params := [], body := none }
        (.requestException "Connection refused") =
      Json.obj [("error", Json.str s)] :=
  claim_c2 "https://yt.example"
    { method := "GET", endpoint := "issues", params := [], body := none }
    (.requestException "Connection refused") rfl

/-- C3: for every input and both values of the configured read-only flag,
the dispatched behaviour of `update_issue` and `add_comment` is identical —
no handler consults the flag, so the mutating POST request is issued
regardless of the flag's value. -/
theorem claim_c3 (ctx : AppContext) (call : ToolCall) :
    toolDispatch { ctx with read_only := true } call =
      toolDispatch { ctx with read_only := false } call
    ∧ (∀ issue_id data fields,
        toolDispatch ctx (.updateIssue issue_id data fields) =
          update_issue issue_id data fields
        ∧ (toolDispatch ctx (.updateIssue issue_id data fields)).method = "POST")
    ∧ (∀ issue_id comment_text fields,
        toolDispatch ctx (.addComment issue_id comment_text fields) =
          add_comment issue_id comment_text fields
        ∧ (toolDispatch ctx (.addComment issue_id comment_text fields)).method =
            "POST") := by
  refine ⟨?_, fun _ _ _ => ⟨rfl, rfl⟩, fun _ _ _ => ⟨rfl, rfl⟩⟩
  cases call <;> rfl

/-- C4: for every query string and all integer values of top and skip
(passed through unmodified), `search_issues` builds a GET request on
endpoint `issues` whose URL is `\x7bbase_url\x7d/api/issues` and whose
query parameters include `query`, `$top = top`, `$skip = skip`, and the
default field projection. -/
theorem claim_c4 (base_url query : String) (top skip : Int) :
    (search_issues query "idReadable,summary,project(shortName)" none top skip).method
        = "GET"
    ∧ (search_issues query "idReadable,summary,project(shortName)" none top skip).endpoint
        = "issues"
    ∧ mkUrl base_url
        (search_issues query "idReadable,summary,project(shortName)" none top skip).endpoint
        = base_url ++ "/api/issues"
    ∧ ("query", PVal.str query) ∈
        (search_issues query "idReadable,summary,project(shortName)" none top skip).params
    ∧ ("$top", PVal.int top) ∈
        (search_issues query "idReadable,summary,project(shortName)" none top skip).params
    ∧ ("$skip", PVal.int skip) ∈
        (search_issues query "idReadable,summary,project(shortName)" none top skip).params
    ∧ ("fields", PVal.str "idReadable,summary,project(shortName)") ∈
        (search_issues query "idReadable,summary,project(shortName)" none top skip).params
    ∧ search_issues query = search_issues query
        "idReadable,summary,project(shortName)" none 100 0 := by
  refine ⟨rfl, rfl, ?_, by simp [search_issues], by simp [search_issues],
    by simp [search_issues], by simp [search_issues, appendCustomFields], rfl⟩
  show base_url ++ "/api/" ++ "issues" = base_url ++ "/api/issues"
  rw [String.append_assoc]
  rfl

/-- C5: for every issue_id and every data mapping, `update_issue` builds a
POST request on `issues/\x7bissue_id\x7d` with `data` sent verbatim as the
JSON body and the `fields` parameter (default `idReadable,summary`) sent as
a query parameter. -/
theorem claim_c5 (issue_id fields : String) (data : Json) :
    (update_issue issue_id data fields).method = "POST"
    ∧ (update_issue issue_id data fields).endpoint = "issues/" ++ issue_id
    ∧ (update_issue issue_id data fields).body = some data
    ∧ (update_issue issue_id data fields).params = [("fields", PVal.str fields)]
    ∧ update_issue issue_id data = update_issue issue_id data "idReadable,summary" :=
  ⟨rfl, rfl, rfl, rfl, rfl⟩

/-- C6: for every issue_id and every comment_text, `add_comment` builds a
POST request on `issues/\x7bissue_id\x7d/comments` with JSON body exactly
`\x7b"text": comment_text\x7d` and the `fields` parameter (default
`id,text,author(login)`) sent as a query parameter. -/
theorem claim_c6 (issue_id comment_text fields : String) :
    (add_comment issue_id comment_text fields).method = "POST"
    ∧ (add_comment issue_id comment_text fields).endpoint =
        "issues/" ++ issue_id ++ "/comments"
    ∧ (add_comment issue_id comment_text fields).body =
        some (Json.obj [("text", Json.str comment_text)])
    ∧ (add_comment issue_id comment_text fields).params =
        [("fields", PVal.str fields)]
    ∧ add_comment issue_id comment_text =
        add_comment issue_id comment_text "id,text,author(login)" :=
  ⟨rfl, rfl, rfl, rfl, rfl⟩

/-- C7: for every call whose HTTP response has status 204, the adapter
returns the empty mapping `\x7b\x7d` — not an error mapping and not
null. -/
theorem claim_c7 (base_url : String) (req : Request) (body : Option Json) :
    make_request base_url req (.response 204 body) = Json.obj []
    ∧ (make_request base_url req (.response 204 body)).hasKey "error" = false
    ∧ make_request base_url req (.response 204 body) ≠ Json.null := by
  have h : make_request base_url req (.response 204 body) = Json.obj [] := by
    simp [make_request]
  refine ⟨h, ?_, ?_⟩
  · rw [h]; rfl
  · rw [h]; intro hcon; exact Json.noConfusion hcon

/-- C8: for every unexpected (unclassified) failure during the call, the
adapter returns exactly `\x7b"error": "An unexpected error occurred"\x7d`,
discarding the original failure detail, so two different unexpected failure
causes yield the identical result. -/
theorem claim_c8 (base_url : String) (req : Request) (msg1 msg2 : String) :
    make_request base_url req (.otherException msg1) =
      Json.obj [("error", Json.str "An unexpected error occurred")]
    ∧ make_request base_url req (.otherException msg1) =
        make_request base_url req (.otherException msg2) :=
  ⟨rfl, rfl⟩

/-- C9: for every HTTP response with a success status other than 204 whose
body is not decodable as JSON, the adapter returns a mapping containing the
key `error` rather than raising. -/
theorem claim_c9 (base_url : String) (req : Request) (status : Nat)
    (h1 : status < 400) (h2 : status ≠ 204) :
    (make_request base_url req (.response status none)).hasKey "error" = true := by
  have h4 : ¬(400 ≤ status ∧ status < 600) := fun hcon => absurd hcon.1 (by omega)
  simp [make_request, h4, h2, Json.hasKey]

/-- Witness for C9 at status 200. -/
theorem claim_c9_witness :
    (make_request "https://yt.example"
        { method := "GET", endpoint := "issues", params := [], body := none }
        (.response 200 none)).hasKey "error" = true :=
  claim_c9 "https://yt.example"
    { method := "GET", endpoint := "issues", params := [], body := none }
    200 (by decide) (by decide)

/-- C10: every tool facade returns exactly the value produced by the
corresponding operation function — the built request and hence the result
or normalized error flows back up unchanged, with no transformation at the
facade layer. -/
theorem claim_c10 :
    (∀ query fields custom_fields top skip,
      youtrack_search_issues query fields custom_fields top skip =
        search_issues query fields custom_fields top skip)
    ∧ (∀ issue_id fields custom_fields,
      youtrack_get_issue issue_id fields custom_fields =
        get_issue issue_id fields custom_fields)
    ∧ (∀ issue_id data fields,
      youtrack_update_issue issue_id data fields = update_issue issue_id data fields)
    ∧ (∀ issue_id comment_text fields,
      youtrack_add_comment issue_id comment_text fields =
        add_comment issue_id comment_text fields)
    ∧ (∀ base_url query fields custom_fields top skip out,
      make_request base_url (youtrack_search_issues query fields custom_fields top skip)
          out =
        make_request base_url (search_issues query fields custom_fields top skip) out)
    ∧ (∀ base_url issue_id data fields out,
      make_request base_url (youtrack_update_issue issue_id data fields) out =
        make_request base_url (update_issue issue_id data fields) out) :=
  ⟨fun _ _ _ _ _ => rfl, fun _ _ _ => rfl, fun _ _ _ => rfl, fun _ _ _ => rfl,
   fun _ _ _ _ _ _ _ => rfl, fun _ _ _ _ _ => rfl⟩

end YoutrackMcp
